import Mathlib

/-!
Verification development for the HTTP/IPC correlation bridge in
`src/electron/httpServer.ts`.

The file embeds, as executable Lean definitions, the module-level state
(`requestIdCounter`, `pendingRequests`), the request translator in the
`app.all` handler, the `ipc-message` response dispatcher, the per-request
`setTimeout` callback, the cleanup closure returned by `startHttpServer`,
and the literal CORS header writes of each route handler.  The bridge's
event-loop behaviour is modelled as a small-step state machine driven by
time-stamped events; JavaScript `Map` operations are modelled on
association lists with `Map`'s replace-on-set / delete semantics.
-/

namespace BsvDesktop

/-! ## JavaScript values seen by the body coercion (lines 108-114)

`req.body` after the `express.json` / `express.text` middlewares is either
absent (`undefined`, modelled as `none`), a string, or a parsed JSON value.
`JsonVal` models the JSON values; numbers are modelled as integers (the
claims do not involve fractional bodies). -/

inductive JsonVal where
  | null : JsonVal
  | bool (b : Bool) : JsonVal
  | num (n : Int) : JsonVal
  | str (s : String) : JsonVal
  | arr (xs : List JsonVal) : JsonVal
  | obj (fields : List (String × JsonVal)) : JsonVal

mutual

/-- `JSON.stringify` on a `JsonVal` (string escaping elided: no claim
depends on it, and the concrete inputs used below contain no
escape-worthy characters). -/
def JsonVal.stringify : JsonVal → String
  | .null => "null"
  | .bool true => "true"
  | .bool false => "false"
  | .num n => toString n
  | .str s => "\"" ++ s ++ "\""
  | .arr xs => "[" ++ JsonVal.stringifyList xs ++ "]"
  | .obj fs => "\x7b" ++ JsonVal.stringifyFields fs ++ "\x7d"

/-- Comma-separated serialization of an array's elements. -/
def JsonVal.stringifyList : List JsonVal → String
  | [] => ""
  | [x] => JsonVal.stringify x
  | x :: y :: rest => JsonVal.stringify x ++ "," ++ JsonVal.stringifyList (y :: rest)

/-- Comma-separated serialization of an object's fields. -/
def JsonVal.stringifyFields : List (String × JsonVal) → String
  | [] => ""
  | [(k, v)] => "\"" ++ k ++ "\":" ++ JsonVal.stringify v
  | (k, v) :: f :: rest =>
      "\"" ++ k ++ "\":" ++ JsonVal.stringify v ++ "," ++ JsonVal.stringifyFields (f :: rest)

end

/-- JavaScript truthiness of a `JsonVal` (`null`, `false`, `0`, `""` are
falsy; every object and array is truthy). -/
def JsonVal.truthy : JsonVal → Bool
  | .null => false
  | .bool b => b
  | .num n => n != 0
  | .str s => s != ""
  | .arr _ => true
  | .obj _ => true

/-- Whether the value is a JS string (`typeof req.body === 'string'`). -/
def JsonVal.isString : JsonVal → Bool
  | .str _ => true
  | _ => false

/-- Body coercion of the `app.all` handler (lines 108-114):
`let body = ''; if (typeof req.body === 'string') body = req.body;
else if (req.body) body = JSON.stringify(req.body);`
`none` models an absent (`undefined`) body. -/
def coerceBody : Option JsonVal → String
  | none => ""
  | some (JsonVal.str s) => s
  | some v => if v.truthy then v.stringify else ""

/-! ## Header collapsing (lines 99-106)

Node delivers a header value as a string or an array of strings; the code
keeps a string as is and takes `value[0]` from an array. -/

inductive HVal where
  | str (s : String) : HVal
  | arr (xs : List String) : HVal

/-- `Object.entries(req.headers).forEach(...)` of lines 100-106: string
values are kept, array values collapse to their first element.  (Node
never produces an empty header array; the `[]` case is dropped.) -/
def collapseHeaders : List (String × HVal) → List (String × String)
  | [] => []
  | (k, HVal.str s) :: rest => (k, s) :: collapseHeaders rest
  | (k, HVal.arr (x :: _)) :: rest => (k, x) :: collapseHeaders rest
  | (_, HVal.arr []) :: rest => collapseHeaders rest

/-! ## Events exchanged with the renderer (lines 8-20) -/

/-- `HttpRequestEvent` sent to the renderer over channel `http-request`. -/
structure HttpRequestEvent where
  method : String
  path : String
  headers : List (String × String)
  body : String
  request_id : Nat
deriving DecidableEq, Repr

/-- `HttpResponseEvent` received from the renderer on `http-response`. -/
structure HttpResponseEvent where
  request_id : Nat
  status : Nat
  body : String
deriving DecidableEq, Repr

/-- The `requestEvent` constructed at lines 116-122 from a request with
the given freshly assigned id. -/
def mkRequestEvent (method path : String) (hs : List (String × HVal))
    (body : Option JsonVal) (request_id : Nat) : HttpRequestEvent :=
  { method := method, path := path, headers := collapseHeaders hs,
    body := coerceBody body, request_id := request_id }

/-! ## CORS headers

Two sources write cross-origin headers: the global `cors` middleware
registered first (lines 29-35, with `origin`, `methods`, `allowedHeaders`
and `exposedHeaders` all `*`, `credentials: false`, and the package
default `preflightContinue: false`), and the explicit `res.header` calls
in each route handler.  Because `preflightContinue` is false, the
middleware terminates every OPTIONS request itself with its own headers,
so the `app.options('*')` handler (lines 42-49) is unreachable; for
non-preflight requests the middleware adds its headers and passes control
on to the handlers. -/

/-- Headers the `cors` middleware writes when it answers an OPTIONS
preflight itself (its preflight branch: origin, methods, allowed headers
and exposed headers; `credentials: false` and an unset `maxAge` emit
nothing).  The package has no notion of
`Access-Control-Allow-Private-Network`. -/
def corsMiddlewarePreflightHeaders : List (String × String) :=
  [("Access-Control-Allow-Origin", "*"),
   ("Access-Control-Allow-Methods", "*"),
   ("Access-Control-Allow-Headers", "*"),
   ("Access-Control-Expose-Headers", "*")]

/-- Headers the `cors` middleware adds to every non-preflight response
before the route handlers run (its non-preflight branch: origin and
exposed headers). -/
def corsMiddlewareResponseHeaders : List (String × String) :=
  [("Access-Control-Allow-Origin", "*"),
   ("Access-Control-Expose-Headers", "*")]

/-- Headers written by the `app.options('*')` handler (lines 43-47).
This handler is dead code: the `cors` middleware has already ended every
OPTIONS request before routing (`preflightContinue: false`), so these
writes never reach a response. -/
def optionsHandlerHeaders : List (String × String) :=
  [("Access-Control-Allow-Origin", "*"),
   ("Access-Control-Allow-Headers", "*"),
   ("Access-Control-Allow-Methods", "*"),
   ("Access-Control-Expose-Headers", "*"),
   ("Access-Control-Allow-Private-Network", "true")]

/-- Headers written by the `GET /manifest.json` handler itself
(lines 76-77); the middleware's response headers are added on top. -/
def manifestHandlerHeaders : List (String × String) :=
  [("Access-Control-Allow-Origin", "*"),
   ("Content-Type", "application/json")]

/-- Headers written on the success path of the `app.all` handler
(lines 144-148). -/
def forwardSuccessHeaders : List (String × String) :=
  [("Access-Control-Allow-Origin", "*"),
   ("Access-Control-Allow-Headers", "*"),
   ("Access-Control-Allow-Methods", "*"),
   ("Access-Control-Expose-Headers", "*"),
   ("Access-Control-Allow-Private-Network", "true")]

/-- Headers written on the catch path of the `app.all` handler
(lines 152-156). -/
def forwardErrorHeaders : List (String × String) :=
  [("Access-Control-Allow-Origin", "*"),
   ("Access-Control-Allow-Headers", "*"),
   ("Access-Control-Allow-Methods", "*"),
   ("Access-Control-Expose-Headers", "*"),
   ("Access-Control-Allow-Private-Network", "true")]

/-- The header set of the program's actual preflight (OPTIONS) response:
the middleware short-circuits every OPTIONS with status 204, so only its
preflight headers are written. -/
def preflightResponseHeaders : List (String × String) :=
  corsMiddlewarePreflightHeaders

/-- The header set of the manifest response: the middleware's response
headers plus the handler's own writes (duplicate names are overwrites of
the same header with the same value). -/
def manifestResponseHeaders : List (String × String) :=
  corsMiddlewareResponseHeaders ++ manifestHandlerHeaders

/-- The header set of a forwarded response on the success path. -/
def forwardSuccessResponseHeaders : List (String × String) :=
  corsMiddlewareResponseHeaders ++ forwardSuccessHeaders

/-- The header set of a forwarded response on the catch path. -/
def forwardErrorResponseHeaders : List (String × String) :=
  corsMiddlewareResponseHeaders ++ forwardErrorHeaders

/-- The five cross-origin headers named by the spec. -/
def requiredCorsHeaders : List (String × String) :=
  [("Access-Control-Allow-Origin", "*"),
   ("Access-Control-Allow-Headers", "*"),
   ("Access-Control-Allow-Methods", "*"),
   ("Access-Control-Expose-Headers", "*"),
   ("Access-Control-Allow-Private-Network", "true")]

/-- A response header list carries all five cross-origin headers. -/
def carriesAllCors (hs : List (String × String)) : Prop :=
  ∀ h ∈ requiredCorsHeaders, h ∈ hs

instance (hs : List (String × String)) : Decidable (carriesAllCors hs) := by
  unfold carriesAllCors; infer_instance

/-! ## JavaScript `Map` operations on association lists

`pendingRequests` is a `Map<number, resolver>`.  `Map.set` replaces the
existing entry for the key in place (or appends a new one), `Map.get`
returns the entry's value or `undefined`, `Map.delete` removes the
entry.  The timer list below reuses the same operations. -/

/-- `Map.get k` / `Map.has k` (via `isSome`). -/
def mapGet {α : Type} : List (Nat × α) → Nat → Option α
  | [], _ => none
  | (k', v') :: rest, k => if k' = k then some v' else mapGet rest k

/-- `Map.set k v`: replace the entry for `k` in place, else append. -/
def mapSet {α : Type} : List (Nat × α) → Nat → α → List (Nat × α)
  | [], k, v => [(k, v)]
  | (k', v') :: rest, k, v =>
      if k' = k then (k, v) :: rest else (k', v') :: mapSet rest k v

/-- `Map.delete k`: remove the entry for `k`. -/
def mapDelete {α : Type} : List (Nat × α) → Nat → List (Nat × α)
  | [], _ => []
  | (k', v') :: rest, k =>
      if k' = k then mapDelete rest k else (k', v') :: mapDelete rest k

/-! ## The bridge state machine

Module-level mutable state of `httpServer.ts` plus the observables needed
to state the claims:

* `requestIdCounter` (line 22) and `pendingRequests` (line 23) are
  module-level, shared by every `startHttpServer` instance.
* A pending entry maps `request_id` to the `resolve` closure of one HTTP
  handler's promise (line 126); the closure is identified here by the
  caller token of the HTTP call that created it.
* `timers` records each `setTimeout` scheduled at line 129 with its
  absolute deadline `now + 30000`; the JS runtime fires a timer exactly
  once, never before its deadline.
* `outcomes` records, per caller token, the HTTP response written to that
  caller (status and body); a response object is written at most once
  (a settled promise ignores later settlement, and in the one flow where
  the handler has already responded from the catch block the abandoned
  `await` never observes the later settlement).
* `sentEvents` logs the `webContents.send('http-request', …)` payloads
  that were successfully handed to the channel (line 138).
* `assignedIds` logs the ids assigned at line 96, in acceptance order.
* `serverClosed` records that the cleanup closure (lines 185-192) ran
  `server.close()`. -/

/-- `setTimeout(..., 30000)` delay of line 134. -/
def REQUEST_TIMEOUT_MS : Nat := 30000

/-- The HTTP response written back to one caller: status plus body. -/
structure WrittenResponse where
  status : Nat
  body : String
deriving DecidableEq, Repr

/-- `JSON.stringify(\x7b error: String(error) \x7d)` of line 157, for an
`Error` whose `String(error)` form is `msg`. -/
def jsErrorBody (msg : String) : String :=
  "\x7b\"error\":\"" ++ msg ++ "\"\x7d"

/-- Module-level bridge state plus observation logs. -/
structure BridgeState where
  now : Nat
  requestIdCounter : Nat
  pendingRequests : List (Nat × Nat)
  timers : List (Nat × Nat)
  outcomes : List (Nat × WrittenResponse)
  sentEvents : List HttpRequestEvent
  assignedIds : List Nat
  serverClosed : Bool
deriving DecidableEq, Repr

/-- State at module load: `let requestIdCounter = 1` (line 22), empty
`pendingRequests` map (line 23). -/
def initState : BridgeState :=
  { now := 0, requestIdCounter := 1, pendingRequests := [], timers := [],
    outcomes := [], sentEvents := [], assignedIds := [], serverClosed := false }

/-- Record the HTTP response for `caller`, at most once (the completion is
single-use: once the caller's response is settled, later settlement of the
same completion is unobserved). -/
def writeOutcomeList (m : List (Nat × WrittenResponse)) (caller : Nat)
    (r : WrittenResponse) : List (Nat × WrittenResponse) :=
  if (mapGet m caller).isSome then m else m ++ [(caller, r)]

/-- Write the HTTP response for `caller` into the state. -/
def writeOutcome (s : BridgeState) (caller : Nat) (r : WrittenResponse) : BridgeState :=
  { s with outcomes := writeOutcomeList s.outcomes caller r }

/-- The `app.all('*')` handler, lines 94-141 up to the suspension point:
allocate `request_id := requestIdCounter++`, translate the request,
register the resolver in `pendingRequests`, schedule the 30 s timeout, and
send over the channel.  `sendErr = none` models a successful
`webContents.send`; `sendErr = some msg` models `send` throwing an `Error`
with message `msg`, which jumps to the catch block (lines 150-158): a 500
response with `JSON.stringify(\x7b error: String(error) \x7d)` is written
immediately, and nothing else happens (in particular the entry just
registered is not removed). -/
def stepAccept (s : BridgeState) (caller : Nat) (method path : String)
    (hs : List (String × HVal)) (body : Option JsonVal)
    (sendErr : Option String) : BridgeState :=
  let request_id := s.requestIdCounter
  let ev := mkRequestEvent method path hs body request_id
  let s1 : BridgeState :=
    { s with requestIdCounter := s.requestIdCounter + 1,
             assignedIds := s.assignedIds ++ [request_id],
             pendingRequests := mapSet s.pendingRequests request_id caller,
             timers := s.timers ++ [(request_id, s.now + REQUEST_TIMEOUT_MS)] }
  match sendErr with
  | none => { s1 with sentEvents := s1.sentEvents ++ [ev] }
  | some msg => writeOutcome s1 caller ⟨500, jsErrorBody ("Error: " ++ msg)⟩

/-- The `ipc-message` listener, lines 82-91: on channel `http-response`,
look the resolver up under `response.request_id`; if present, resolve the
waiting handler with the event (the resumed handler writes the event's
status and body, lines 144-149) and delete the entry; otherwise do
nothing. -/
def stepIpcResponse (s : BridgeState) (channel : String)
    (resp : HttpResponseEvent) : BridgeState :=
  if channel = "http-response" then
    match mapGet s.pendingRequests resp.request_id with
    | some caller =>
        let s1 := writeOutcome s caller ⟨resp.status, resp.body⟩
        { s1 with pendingRequests := mapDelete s1.pendingRequests resp.request_id }
    | none => s
  else s

/-- The `setTimeout` callback of lines 129-134 firing for `request_id`:
only possible while the timer is scheduled and its deadline has passed
(the runtime fires each timer exactly once, never early — a fire event
that violates this is a no-op of the runtime, not of the program).  The
callback checks `pendingRequests.has(request_id)`; if present it deletes
the entry and rejects, and the rejected `await` lands in the catch block
which writes the 500 timeout response. -/
def stepTimerFire (s : BridgeState) (request_id : Nat) : BridgeState :=
  match mapGet s.timers request_id with
  | none => s
  | some deadline =>
      if deadline ≤ s.now then
        let s1 := { s with timers := mapDelete s.timers request_id }
        match mapGet s1.pendingRequests request_id with
        | some caller =>
            let s2 := { s1 with
              pendingRequests := mapDelete s1.pendingRequests request_id }
            writeOutcome s2 caller ⟨500, jsErrorBody "Error: Request timeout"⟩
        | none => s1
      else s

/-- The cleanup closure returned at lines 185-192: `server.close(...)`
and nothing else — no access to `pendingRequests`, `timers`, or any
pending completion. -/
def stepCleanup (s : BridgeState) : BridgeState :=
  { s with serverClosed := true }

/-- Events driving the bridge.  `instanceId` identifies which
`startHttpServer` instance's Express app or `mainWindow` the event arrives
through; every instance's closures read and write the same module-level
`requestIdCounter` and `pendingRequests`. -/
inductive Ev where
  | accept (instanceId caller : Nat) (method path : String)
      (headers : List (String × HVal)) (body : Option JsonVal)
      (sendErr : Option String) : Ev
  | ipcResponse (instanceId : Nat) (channel : String)
      (resp : HttpResponseEvent) : Ev
  | timerFire (request_id : Nat) : Ev
  | cleanup (instanceId : Nat) : Ev

/-- One event-loop step at wall-clock time `e.1` (the clock never runs
backwards). -/
def step (s : BridgeState) (e : Nat × Ev) : BridgeState :=
  let s0 : BridgeState := { s with now := max s.now e.1 }
  match e.2 with
  | .accept _ caller method path hs body sendErr =>
      stepAccept s0 caller method path hs body sendErr
  | .ipcResponse _ channel resp => stepIpcResponse s0 channel resp
  | .timerFire request_id => stepTimerFire s0 request_id
  | .cleanup _ => stepCleanup s0

/-- Run a time-stamped event trace from module load. -/
def run (tr : List (Nat × Ev)) : BridgeState :=
  tr.foldl step initState

/-! ## Lemmas about the `Map` operations -/

theorem mapGet_mapSet_self {α : Type} (m : List (Nat × α)) (k : Nat) (v : α) :
    mapGet (mapSet m k v) k = some v := by
  induction m with
  | nil => simp [mapSet, mapGet]
  | cons hd tl ih =>
      obtain ⟨k', v'⟩ := hd
      by_cases h : k' = k <;> simp [mapSet, mapGet, h, ih]

theorem mapGet_mapSet_ne {α : Type} (m : List (Nat × α)) (k j : Nat) (v : α)
    (h : j ≠ k) : mapGet (mapSet m k v) j = mapGet m j := by
  have hkj : k ≠ j := Ne.symm h
  induction m with
  | nil => simp [mapSet, mapGet, hkj]
  | cons hd tl ih =>
      obtain ⟨k', v'⟩ := hd
      by_cases hk : k' = k
      · subst hk
        simp [mapSet, mapGet, hkj]
      · simp [mapSet, mapGet, hk, ih]

theorem mapGet_mapDelete_self {α : Type} (m : List (Nat × α)) (k : Nat) :
    mapGet (mapDelete m k) k = none := by
  induction m with
  | nil => simp [mapDelete, mapGet]
  | cons hd tl ih =>
      obtain ⟨k', v'⟩ := hd
      by_cases h : k' = k <;> simp [mapDelete, mapGet, h, ih]

theorem mapGet_mapDelete_ne {α : Type} (m : List (Nat × α)) (k j : Nat)
    (h : j ≠ k) : mapGet (mapDelete m k) j = mapGet m j := by
  have hkj : k ≠ j := Ne.symm h
  induction m with
  | nil => simp [mapDelete]
  | cons hd tl ih =>
      obtain ⟨k', v'⟩ := hd
      by_cases hk : k' = k
      · subst hk
        simp [mapDelete, mapGet, hkj, ih]
      · simp [mapDelete, mapGet, hk, ih]

theorem mapSet_fresh {α : Type} (m : List (Nat × α)) (k : Nat) (v : α)
    (h : mapGet m k = none) : mapSet m k v = m ++ [(k, v)] := by
  induction m with
  | nil => simp [mapSet]
  | cons hd tl ih =>
      obtain ⟨k', v'⟩ := hd
      by_cases hk : k' = k
      · simp [mapGet, hk] at h
      · simp [mapGet, hk] at h
        simp [mapSet, hk, ih h]

theorem mapGet_append_left {α : Type} (m m' : List (Nat × α)) (j : Nat) (v : α)
    (h : mapGet m j = some v) : mapGet (m ++ m') j = some v := by
  induction m with
  | nil => simp [mapGet] at h
  | cons hd tl ih =>
      obtain ⟨k', v'⟩ := hd
      by_cases hk : k' = j <;> simp_all [mapGet]

theorem mapGet_append_right {α : Type} (m m' : List (Nat × α)) (j : Nat)
    (h : mapGet m j = none) : mapGet (m ++ m') j = mapGet m' j := by
  induction m with
  | nil => simp
  | cons hd tl ih =>
      obtain ⟨k', v'⟩ := hd
      by_cases hk : k' = j <;> simp_all [mapGet]

theorem mapGet_single {α : Type} (k j : Nat) (v : α) :
    mapGet [(k, v)] j = if k = j then some v else none := rfl

/-! ## Characterisation of `writeOutcomeList` and of each step's fields -/

theorem writeOutcomeList_of_none (m : List (Nat × WrittenResponse)) (c : Nat)
    (r : WrittenResponse) (h : mapGet m c = none) :
    writeOutcomeList m c r = m ++ [(c, r)] := by
  simp [writeOutcomeList, h]

theorem writeOutcomeList_of_some (m : List (Nat × WrittenResponse)) (c : Nat)
    (r : WrittenResponse) (h : (mapGet m c).isSome) :
    writeOutcomeList m c r = m := by
  simp [writeOutcomeList, h]

/-- The accept path: regardless of the send outcome, the counter is
incremented, the id is logged, the resolver is registered and the 30 s
timer is scheduled. -/
theorem stepAccept_fields (s : BridgeState) (caller : Nat) (method path : String)
    (hs : List (String × HVal)) (body : Option JsonVal) (sendErr : Option String) :
    (stepAccept s caller method path hs body sendErr).now = s.now
    ∧ (stepAccept s caller method path hs body sendErr).requestIdCounter
        = s.requestIdCounter + 1
    ∧ (stepAccept s caller method path hs body sendErr).pendingRequests
        = mapSet s.pendingRequests s.requestIdCounter caller
    ∧ (stepAccept s caller method path hs body sendErr).timers
        = s.timers ++ [(s.requestIdCounter, s.now + REQUEST_TIMEOUT_MS)]
    ∧ (stepAccept s caller method path hs body sendErr).assignedIds
        = s.assignedIds ++ [s.requestIdCounter]
    ∧ (stepAccept s caller method path hs body sendErr).serverClosed = s.serverClosed := by
  cases sendErr <;> simp [stepAccept, writeOutcome]

/-- The accept path with a successful `webContents.send`: the event is
logged as sent and no response is written yet. -/
theorem stepAccept_ok_fields (s : BridgeState) (caller : Nat) (method path : String)
    (hs : List (String × HVal)) (body : Option JsonVal) :
    (stepAccept s caller method path hs body none).outcomes = s.outcomes
    ∧ (stepAccept s caller method path hs body none).sentEvents
        = s.sentEvents ++ [mkRequestEvent method path hs body s.requestIdCounter] := by
  simp [stepAccept]

/-- The accept path with `webContents.send` throwing: the catch block
writes the 500 response at once and nothing is sent. -/
theorem stepAccept_err_fields (s : BridgeState) (caller : Nat) (method path : String)
    (hs : List (String × HVal)) (body : Option JsonVal) (msg : String) :
    (stepAccept s caller method path hs body (some msg)).outcomes
        = writeOutcomeList s.outcomes caller ⟨500, jsErrorBody ("Error: " ++ msg)⟩
    ∧ (stepAccept s caller method path hs body (some msg)).sentEvents = s.sentEvents := by
  simp [stepAccept, writeOutcome]

/-- The dispatcher on a matching pending entry: resolves that entry's
caller with the event's status and body and deletes the entry; everything
else is untouched. -/
theorem stepIpc_hit_fields (s : BridgeState) (resp : HttpResponseEvent) (caller : Nat)
    (h : mapGet s.pendingRequests resp.request_id = some caller) :
    (stepIpcResponse s "http-response" resp).pendingRequests
        = mapDelete s.pendingRequests resp.request_id
    ∧ (stepIpcResponse s "http-response" resp).outcomes
        = writeOutcomeList s.outcomes caller ⟨resp.status, resp.body⟩
    ∧ (stepIpcResponse s "http-response" resp).timers = s.timers
    ∧ (stepIpcResponse s "http-response" resp).requestIdCounter = s.requestIdCounter
    ∧ (stepIpcResponse s "http-response" resp).assignedIds = s.assignedIds
    ∧ (stepIpcResponse s "http-response" resp).now = s.now
    ∧ (stepIpcResponse s "http-response" resp).sentEvents = s.sentEvents
    ∧ (stepIpcResponse s "http-response" resp).serverClosed = s.serverClosed := by
  simp [stepIpcResponse, h, writeOutcome]

/-- The dispatcher on a `request_id` with no pending entry: a stale or
unknown response is silently dropped. -/
theorem stepIpc_miss (s : BridgeState) (resp : HttpResponseEvent)
    (h : mapGet s.pendingRequests resp.request_id = none) :
    stepIpcResponse s "http-response" resp = s := by
  simp [stepIpcResponse, h]

/-- The dispatcher ignores every channel other than `http-response`. -/
theorem stepIpc_other (s : BridgeState) (channel : String) (resp : HttpResponseEvent)
    (h : channel ≠ "http-response") : stepIpcResponse s channel resp = s := by
  simp [stepIpcResponse, h]

/-- A fire event for a timer that is not scheduled is a no-op. -/
theorem stepTimer_none (s : BridgeState) (id : Nat)
    (h : mapGet s.timers id = none) : stepTimerFire s id = s := by
  simp [stepTimerFire, h]

/-- A timer never fires before its deadline. -/
theorem stepTimer_early (s : BridgeState) (id d : Nat)
    (h : mapGet s.timers id = some d) (hd : s.now < d) :
    stepTimerFire s id = s := by
  simp [stepTimerFire, h, Nat.not_le_of_lt hd]

/-- The timeout callback firing (at or after its deadline) while the entry
is still pending: deletes the entry, consumes the timer, and writes the
500 timeout response to the entry's caller. -/
theorem stepTimer_fire_hit (s : BridgeState) (id d caller : Nat)
    (ht : mapGet s.timers id = some d) (hd : d ≤ s.now)
    (hp : mapGet s.pendingRequests id = some caller) :
    (stepTimerFire s id).pendingRequests = mapDelete s.pendingRequests id
    ∧ (stepTimerFire s id).timers = mapDelete s.timers id
    ∧ (stepTimerFire s id).outcomes
        = writeOutcomeList s.outcomes caller ⟨500, jsErrorBody "Error: Request timeout"⟩
    ∧ (stepTimerFire s id).requestIdCounter = s.requestIdCounter
    ∧ (stepTimerFire s id).assignedIds = s.assignedIds
    ∧ (stepTimerFire s id).now = s.now
    ∧ (stepTimerFire s id).sentEvents = s.sentEvents
    ∧ (stepTimerFire s id).serverClosed = s.serverClosed := by
  simp [stepTimerFire, ht, hd, hp, writeOutcome]

/-- The timeout callback firing after the entry was already removed:
`pendingRequests.has(request_id)` is false, so only the timer is consumed
— no response is written and no entry is touched. -/
theorem stepTimer_fire_miss (s : BridgeState) (id d : Nat)
    (ht : mapGet s.timers id = some d) (hd : d ≤ s.now)
    (hp : mapGet s.pendingRequests id = none) :
    stepTimerFire s id = { s with timers := mapDelete s.timers id } := by
  simp [stepTimerFire, ht, hd, hp]

/-! ## Reachability invariant

Every id in the pending map, the timer list and the assignment log was
issued by the allocator, hence is below the current counter value; the
assignment log is strictly increasing. -/

def Inv (s : BridgeState) : Prop :=
  1 ≤ s.requestIdCounter
  ∧ (∀ k c, mapGet s.pendingRequests k = some c → k < s.requestIdCounter)
  ∧ (∀ k d, mapGet s.timers k = some d → k < s.requestIdCounter)
  ∧ (∀ k ∈ s.assignedIds, k < s.requestIdCounter)
  ∧ s.assignedIds.Pairwise (· < ·)

theorem inv_init : Inv initState := by
  refine ⟨le_refl 1, ?_, ?_, ?_, ?_⟩ <;> simp [initState, mapGet]

theorem inv_stepAccept (s : BridgeState) (h : Inv s) (caller : Nat)
    (method path : String) (hs : List (String × HVal)) (body : Option JsonVal)
    (sendErr : Option String) :
    Inv (stepAccept s caller method path hs body sendErr) := by
  obtain ⟨h1, h2, h3, h4, h5⟩ := h
  obtain ⟨f0, f1, f2, f3, f4, f5⟩ := stepAccept_fields s caller method path hs body sendErr
  refine ⟨?_, ?_, ?_, ?_, ?_⟩
  · rw [f1]; omega
  · intro k c hk
    rw [f2] at hk; rw [f1]
    by_cases hkc : k = s.requestIdCounter
    · omega
    · have hk' : mapGet s.pendingRequests k = some c := by
        rw [← mapGet_mapSet_ne s.pendingRequests s.requestIdCounter k caller hkc]
        exact hk
      have := h2 k c hk'
      omega
  · intro k d hk
    rw [f3] at hk; rw [f1]
    cases hget : mapGet s.timers k with
    | some dd =>
        have := h3 k dd hget
        omega
    | none =>
        rw [mapGet_append_right _ _ _ hget, mapGet_single] at hk
        by_cases hkc : s.requestIdCounter = k
        · omega
        · simp [hkc] at hk
  · intro k hk
    rw [f4] at hk; rw [f1]
    simp only [List.mem_append, List.mem_singleton] at hk
    rcases hk with hk | hk
    · have := h4 k hk; omega
    · omega
  · rw [f4]
    rw [List.pairwise_append]
    refine ⟨h5, List.pairwise_singleton _ _, ?_⟩
    intro a ha b hb
    simp only [List.mem_singleton] at hb
    subst hb
    exact h4 a ha

theorem inv_stepIpc (s : BridgeState) (h : Inv s) (channel : String)
    (resp : HttpResponseEvent) : Inv (stepIpcResponse s channel resp) := by
  obtain ⟨h1, h2, h3, h4, h5⟩ := h
  by_cases hc : channel = "http-response"
  · subst hc
    cases hget : mapGet s.pendingRequests resp.request_id with
    | some caller =>
        obtain ⟨f0, f1, f2, f3, f4, f5, f6, f7⟩ := stepIpc_hit_fields s resp caller hget
        refine ⟨?_, ?_, ?_, ?_, ?_⟩
        · rw [f3]; exact h1
        · intro k c hk
          rw [f0] at hk; rw [f3]
          by_cases hkc : k = resp.request_id
          · subst hkc
            rw [mapGet_mapDelete_self] at hk
            exact absurd hk (by simp)
          · rw [mapGet_mapDelete_ne _ _ _ hkc] at hk
            exact h2 k c hk
        · intro k d hk
          rw [f2] at hk; rw [f3]
          exact h3 k d hk
        · intro k hk
          rw [f4] at hk; rw [f3]
          exact h4 k hk
        · rw [f4]; exact h5
    | none =>
        rw [stepIpc_miss s resp hget]
        exact ⟨h1, h2, h3, h4, h5⟩
  · rw [stepIpc_other s channel resp hc]
    exact ⟨h1, h2, h3, h4, h5⟩

theorem inv_stepTimer (s : BridgeState) (h : Inv s) (id : Nat) :
    Inv (stepTimerFire s id) := by
  obtain ⟨h1, h2, h3, h4, h5⟩ := h
  cases ht : mapGet s.timers id with
  | none =>
      rw [stepTimer_none s id ht]
      exact ⟨h1, h2, h3, h4, h5⟩
  | some d =>
      by_cases hd : d ≤ s.now
      · cases hp : mapGet s.pendingRequests id with
        | some caller =>
            obtain ⟨f0, f1, f2, f3, f4, f5, f6, f7⟩ := stepTimer_fire_hit s id d caller ht hd hp
            refine ⟨?_, ?_, ?_, ?_, ?_⟩
            · rw [f3]; exact h1
            · intro k c hk
              rw [f0] at hk; rw [f3]
              by_cases hkc : k = id
              · subst hkc
                rw [mapGet_mapDelete_self] at hk
                exact absurd hk (by simp)
              · rw [mapGet_mapDelete_ne _ _ _ hkc] at hk
                exact h2 k c hk
            · intro k dd hk
              rw [f1] at hk; rw [f3]
              by_cases hkc : k = id
              · subst hkc
                rw [mapGet_mapDelete_self] at hk
                exact absurd hk (by simp)
              · rw [mapGet_mapDelete_ne _ _ _ hkc] at hk
                exact h3 k dd hk
            · intro k hk
              rw [f4] at hk; rw [f3]
              exact h4 k hk
            · rw [f4]; exact h5
        | none =>
            rw [stepTimer_fire_miss s id d ht hd hp]
            refine ⟨h1, h2, ?_, h4, h5⟩
            intro k dd hk
            by_cases hkc : k = id
            · subst hkc
              rw [mapGet_mapDelete_self] at hk
              exact absurd hk (by simp)
            · rw [mapGet_mapDelete_ne _ _ _ hkc] at hk
              exact h3 k dd hk
      · rw [stepTimer_early s id d ht (Nat.lt_of_not_le hd)]
        exact ⟨h1, h2, h3, h4, h5⟩

theorem inv_step (s : BridgeState) (e : Nat × Ev) (h : Inv s) :
    Inv (step s e) := by
  obtain ⟨t, ev⟩ := e
  have h0 : Inv { s with now := max s.now t } := h
  cases ev with
  | accept inst caller method path hs body sendErr =>
      exact inv_stepAccept { s with now := max s.now t } h0 caller method path hs body sendErr
  | ipcResponse inst channel resp =>
      exact inv_stepIpc { s with now := max s.now t } h0 channel resp
  | timerFire id =>
      exact inv_stepTimer { s with now := max s.now t } h0 id
  | cleanup inst =>
      exact h0

theorem inv_foldl (tr : List (Nat × Ev)) :
    ∀ s : BridgeState, Inv s → Inv (tr.foldl step s) := by
  induction tr with
  | nil => intro s h; exact h
  | cons e rest ih => intro s h; exact ih (step s e) (inv_step s e h)

theorem inv_run (tr : List (Nat × Ev)) : Inv (run tr) :=
  inv_foldl tr initState inv_init

/-- `mapGet` over an appended singleton with a different key. -/
theorem mapGet_append_single_ne {α : Type} (m : List (Nat × α)) (c c' : Nat)
    (v : α) (h : c' ≠ c) : mapGet (m ++ [(c, v)]) c' = mapGet m c' := by
  cases hg : mapGet m c' with
  | some w => rw [mapGet_append_left _ _ _ _ hg]
  | none =>
      rw [mapGet_append_right _ _ _ hg, mapGet_single, if_neg (Ne.symm h)]

/-! ## Helper lemmas bridging `step` to its components -/

/-- A response event on `http-response` whose id has no pending entry is
a complete no-op on the state. -/
theorem ipc_noop_of_absent (s : BridgeState) (N st : Nat) (bd : String)
    (h : mapGet s.pendingRequests N = none) :
    stepIpcResponse s "http-response" ⟨N, st, bd⟩ = s :=
  stepIpc_miss s ⟨N, st, bd⟩ h

/-- Resolving a present entry removes it from the table. -/
theorem ipc_hit_removes (s : BridgeState) (N st : Nat) (bd : String) (c : Nat)
    (h : mapGet s.pendingRequests N = some c) :
    mapGet (stepIpcResponse s "http-response" ⟨N, st, bd⟩).pendingRequests N = none := by
  obtain ⟨f0, _⟩ := stepIpc_hit_fields s ⟨N, st, bd⟩ c h
  have e0 : (stepIpcResponse s "http-response" ⟨N, st, bd⟩).pendingRequests
      = mapDelete s.pendingRequests N := f0
  rw [e0]
  exact mapGet_mapDelete_self _ _

/-- A timer firing for an id whose entry is gone touches neither the
outcomes nor the pending table. -/
theorem timer_noop_of_absent (s : BridgeState) (N : Nat)
    (h : mapGet s.pendingRequests N = none) :
    (stepTimerFire s N).outcomes = s.outcomes
    ∧ (stepTimerFire s N).pendingRequests = s.pendingRequests := by
  cases ht : mapGet s.timers N with
  | none => rw [stepTimer_none s N ht]; exact ⟨rfl, rfl⟩
  | some d =>
      by_cases hd : d ≤ s.now
      · rw [stepTimer_fire_miss s N d ht hd h]; exact ⟨rfl, rfl⟩
      · rw [stepTimer_early s N d ht (Nat.lt_of_not_le hd)]; exact ⟨rfl, rfl⟩

/-- A timeout firing on a present entry removes it from the table. -/
theorem timer_fire_removes (s : BridgeState) (N d c : Nat)
    (ht : mapGet s.timers N = some d) (hd : d ≤ s.now)
    (hp : mapGet s.pendingRequests N = some c) :
    mapGet (stepTimerFire s N).pendingRequests N = none := by
  obtain ⟨f0, _⟩ := stepTimer_fire_hit s N d c ht hd hp
  rw [f0]
  exact mapGet_mapDelete_self _ _

/-- The accept path never touches an already-allocated identifier's slot:
an id below the counter that is absent stays absent. -/
theorem accept_preserves_absent (s : BridgeState) (caller : Nat)
    (method path : String) (hs : List (String × HVal)) (body : Option JsonVal)
    (sendErr : Option String) (N : Nat) (hlt : N < s.requestIdCounter)
    (h : mapGet s.pendingRequests N = none) :
    mapGet (stepAccept s caller method path hs body sendErr).pendingRequests N = none := by
  obtain ⟨_, _, f2, _, _, _⟩ := stepAccept_fields s caller method path hs body sendErr
  rw [f2, mapGet_mapSet_ne _ _ _ _ (by omega)]
  exact h

/-- The dispatcher never inserts: an absent id stays absent. -/
theorem ipc_preserves_absent (s : BridgeState) (channel : String)
    (resp : HttpResponseEvent) (N : Nat)
    (h : mapGet s.pendingRequests N = none) :
    mapGet (stepIpcResponse s channel resp).pendingRequests N = none := by
  by_cases hc : channel = "http-response"
  · subst hc
    cases hget : mapGet s.pendingRequests resp.request_id with
    | some caller =>
        obtain ⟨f0, _⟩ := stepIpc_hit_fields s resp caller hget
        rw [f0]
        by_cases hN : N = resp.request_id
        · subst hN; exact mapGet_mapDelete_self _ _
        · rw [mapGet_mapDelete_ne _ _ _ hN]; exact h
    | none => rw [stepIpc_miss s resp hget]; exact h
  · rw [stepIpc_other s channel resp hc]; exact h

/-- The timeout callback never inserts: an absent id stays absent. -/
theorem timer_preserves_absent (s : BridgeState) (id N : Nat)
    (h : mapGet s.pendingRequests N = none) :
    mapGet (stepTimerFire s id).pendingRequests N = none := by
  cases ht : mapGet s.timers id with
  | none => rw [stepTimer_none s id ht]; exact h
  | some d =>
      by_cases hd : d ≤ s.now
      · cases hp : mapGet s.pendingRequests id with
        | some caller =>
            obtain ⟨f0, _⟩ := stepTimer_fire_hit s id d caller ht hd hp
            rw [f0]
            by_cases hN : N = id
            · subst hN; exact mapGet_mapDelete_self _ _
            · rw [mapGet_mapDelete_ne _ _ _ hN]; exact h
        | none => rw [stepTimer_fire_miss s id d ht hd hp]; exact h
      · rw [stepTimer_early s id d ht (Nat.lt_of_not_le hd)]; exact h

/-- No step re-inserts a previously allocated, already-removed id. -/
theorem step_preserves_absent (s : BridgeState) (e : Nat × Ev) (N : Nat)
    (hlt : N < s.requestIdCounter) (h : mapGet s.pendingRequests N = none) :
    mapGet (step s e).pendingRequests N = none := by
  obtain ⟨t, ev⟩ := e
  cases ev with
  | accept inst caller method path hs body sendErr =>
      exact accept_preserves_absent { s with now := max s.now t }
        caller method path hs body sendErr N hlt h
  | ipcResponse inst channel resp =>
      exact ipc_preserves_absent { s with now := max s.now t } channel resp N h
  | timerFire id =>
      exact timer_preserves_absent { s with now := max s.now t } id N h
  | cleanup inst => exact h

/-! ## The claims -/

/-- Claim C1: a `ResponseEvent` delivered on the `http-response` channel
with `request_id = N` while an entry for `N` is pending fulfills exactly
the completion that was registered under `N` — its caller receives the
event's status and body — and no completion registered under any other
identifier, however many requests are concurrently pending. -/
theorem c1_correlation_correctness (s : BridgeState)
    (t inst N c status : Nat) (body : String)
    (hpend : mapGet s.pendingRequests N = some c)
    (hout : mapGet s.outcomes c = none) :
    (step s (t, Ev.ipcResponse inst "http-response" ⟨N, status, body⟩)).outcomes
        = s.outcomes ++ [(c, ⟨status, body⟩)]
    ∧ mapGet (step s (t, Ev.ipcResponse inst "http-response" ⟨N, status, body⟩)).pendingRequests N
        = none
    ∧ (∀ M, M ≠ N →
        mapGet (step s (t, Ev.ipcResponse inst "http-response" ⟨N, status, body⟩)).pendingRequests M
          = mapGet s.pendingRequests M)
    ∧ (∀ c', c' ≠ c →
        mapGet (step s (t, Ev.ipcResponse inst "http-response" ⟨N, status, body⟩)).outcomes c'
          = mapGet s.outcomes c') := by
  obtain ⟨f0, f1, f2, f3, _⟩ :=
    stepIpc_hit_fields { s with now := max s.now t } ⟨N, status, body⟩ c hpend
  have e0 : (step s (t, Ev.ipcResponse inst "http-response" ⟨N, status, body⟩)).pendingRequests
      = mapDelete s.pendingRequests N := f0
  have e1 : (step s (t, Ev.ipcResponse inst "http-response" ⟨N, status, body⟩)).outcomes
      = writeOutcomeList s.outcomes c ⟨status, body⟩ := f1
  refine ⟨?_, ?_, ?_, ?_⟩
  · rw [e1, writeOutcomeList_of_none _ _ _ hout]
  · rw [e0]
    exact mapGet_mapDelete_self _ _
  · intro M hM
    rw [e0, mapGet_mapDelete_ne _ _ _ hM]
  · intro c' hc'
    rw [e1, writeOutcomeList_of_none _ _ _ hout,
       mapGet_append_single_ne _ _ _ _ hc']

/-- Witness for C1: two pending requests, ids 1 (caller 7) and 2
(caller 8); the response for id 1 resolves caller 7 only, and caller 8's
entry stays pending. -/
theorem c1_correlation_correctness_witness :
    (step (⟨0, 3, [(1, 7), (2, 8)], [(1, 30000), (2, 30000)], [], [], [1, 2], false⟩ : BridgeState)
        (5, Ev.ipcResponse 0 "http-response" ⟨1, 200, "ok"⟩)).outcomes
        = [] ++ [(7, ⟨200, "ok"⟩)]
    ∧ mapGet (step (⟨0, 3, [(1, 7), (2, 8)], [(1, 30000), (2, 30000)], [], [], [1, 2], false⟩ : BridgeState)
        (5, Ev.ipcResponse 0 "http-response" ⟨1, 200, "ok"⟩)).pendingRequests 1 = none
    ∧ (∀ M, M ≠ 1 →
        mapGet (step (⟨0, 3, [(1, 7), (2, 8)], [(1, 30000), (2, 30000)], [], [], [1, 2], false⟩ : BridgeState)
          (5, Ev.ipcResponse 0 "http-response" ⟨1, 200, "ok"⟩)).pendingRequests M
          = mapGet [(1, 7), (2, 8)] M)
    ∧ (∀ c', c' ≠ 7 →
        mapGet (step (⟨0, 3, [(1, 7), (2, 8)], [(1, 30000), (2, 30000)], [], [], [1, 2], false⟩ : BridgeState)
          (5, Ev.ipcResponse 0 "http-response" ⟨1, 200, "ok"⟩)).outcomes c'
          = mapGet [] c') :=
  c1_correlation_correctness
    (⟨0, 3, [(1, 7), (2, 8)], [(1, 30000), (2, 30000)], [], [], [1, 2], false⟩ : BridgeState)
    5 0 1 7 200 "ok" (by decide) (by decide)

/-- Claim C2: a pending entry is removed at most once — by resolution or
by timeout, never both: once the lookup under an identifier finds nothing,
a resolution attempt with that identifier is a complete no-op and a timer
firing for it writes no outcome; each removal path leaves the entry
absent; and an identifier that was allocated and removed is never
re-inserted by any later step. -/
theorem c2_at_most_once_removal :
    (∀ (s : BridgeState) (t inst N status : Nat) (body : String),
        mapGet s.pendingRequests N = none →
        step s (t, Ev.ipcResponse inst "http-response" ⟨N, status, body⟩)
          = { s with now := max s.now t })
    ∧ (∀ (s : BridgeState) (t N : Nat),
        mapGet s.pendingRequests N = none →
        (step s (t, Ev.timerFire N)).outcomes = s.outcomes
        ∧ (step s (t, Ev.timerFire N)).pendingRequests = s.pendingRequests)
    ∧ (∀ (s : BridgeState) (t inst N c status : Nat) (body : String),
        mapGet s.pendingRequests N = some c →
        mapGet (step s (t, Ev.ipcResponse inst "http-response"
          ⟨N, status, body⟩)).pendingRequests N = none)
    ∧ (∀ (s : BridgeState) (t N d c : Nat),
        mapGet s.timers N = some d → d ≤ max s.now t →
        mapGet s.pendingRequests N = some c →
        mapGet (step s (t, Ev.timerFire N)).pendingRequests N = none)
    ∧ (∀ (s : BridgeState) (e : Nat × Ev) (N : Nat),
        N < s.requestIdCounter →
        mapGet s.pendingRequests N = none →
        mapGet (step s e).pendingRequests N = none) := by
  refine ⟨?_, ?_, ?_, ?_, ?_⟩
  · intro s t inst N status body h
    exact ipc_noop_of_absent { s with now := max s.now t } N status body h
  · intro s t N h
    exact timer_noop_of_absent { s with now := max s.now t } N h
  · intro s t inst N c status body h
    exact ipc_hit_removes { s with now := max s.now t } N status body c h
  · intro s t N d c ht hd hp
    exact timer_fire_removes { s with now := max s.now t } N d c ht hd hp
  · intro s e N hlt h
    exact step_preserves_absent s e N hlt h

/-- Witness for C2: after id 1 was already removed, a second response for
id 1 changes nothing, and a later timer fire for it writes no outcome. -/
theorem c2_at_most_once_removal_witness :
    (step (⟨4, 2, [], [(1, 30000)], [(9, ⟨200, "ok"⟩)], [], [1], false⟩ : BridgeState)
        (6, Ev.ipcResponse 0 "http-response" ⟨1, 201, "late"⟩)
      = (⟨max 4 6, 2, [], [(1, 30000)], [(9, ⟨200, "ok"⟩)], [], [1], false⟩ : BridgeState))
    ∧ ((step (⟨4, 2, [], [(1, 30000)], [(9, ⟨200, "ok"⟩)], [], [1], false⟩ : BridgeState)
        (30005, Ev.timerFire 1)).outcomes = [(9, ⟨200, "ok"⟩)]
      ∧ (step (⟨4, 2, [], [(1, 30000)], [(9, ⟨200, "ok"⟩)], [], [1], false⟩ : BridgeState)
        (30005, Ev.timerFire 1)).pendingRequests = []) :=
  ⟨c2_at_most_once_removal.1
      (⟨4, 2, [], [(1, 30000)], [(9, ⟨200, "ok"⟩)], [], [1], false⟩ : BridgeState)
      6 0 1 201 "late" (by decide),
   c2_at_most_once_removal.2.1
      (⟨4, 2, [], [(1, 30000)], [(9, ⟨200, "ok"⟩)], [], [1], false⟩ : BridgeState)
      30005 1 (by decide)⟩

/-- Claim C3: the identifier allocator is a process-wide counter starting
at 1, incremented on every accepted request regardless of the send
outcome, so the assigned identifiers of any trace are pairwise distinct
and strictly increasing in acceptance order. -/
theorem c3_identifier_allocator :
    initState.requestIdCounter = 1
    ∧ (∀ tr : List (Nat × Ev), (run tr).assignedIds.Pairwise (· < ·))
    ∧ (∀ (s : BridgeState) (t inst caller : Nat) (method path : String)
        (hs : List (String × HVal)) (body : Option JsonVal) (sendErr : Option String),
        (step s (t, Ev.accept inst caller method path hs body sendErr)).requestIdCounter
          = s.requestIdCounter + 1
        ∧ (step s (t, Ev.accept inst caller method path hs body sendErr)).assignedIds
          = s.assignedIds ++ [s.requestIdCounter]) := by
  refine ⟨rfl, ?_, ?_⟩
  · intro tr
    exact (inv_run tr).2.2.2.2
  · intro s t inst caller method path hs body sendErr
    obtain ⟨_, f1, _, _, f4, _⟩ :=
      stepAccept_fields { s with now := max s.now t } caller method path hs body sendErr
    exact ⟨f1, f4⟩

/-- `mapGet` finds a freshly appended binding. -/
theorem mapGet_append_single_self {α : Type} (m : List (Nat × α)) (c : Nat)
    (v : α) (h : mapGet m c = none) : mapGet (m ++ [(c, v)]) c = some v := by
  rw [mapGet_append_right _ _ _ h, mapGet_single, if_pos rfl]

/-- Claim C4 counterexample: registering id 5 while an entry for 5 is
present does not fail — `Map.set` silently replaces the entry (the old
resolver 7 is dropped for the new one 8), so registration neither fails
nor preserves the existing entry. -/
theorem c4_register_replaces_counterexample :
    mapSet [(5, 7)] 5 8 = [(5, 8)]
    ∧ mapGet (mapSet [(5, 7)] 5 8) 5 = some 8
    ∧ mapGet [(5, 7)] 5 = some 7 := by decide

/-- Claim C4 (amended): registration via `Map.set` never fails and would
silently replace an existing entry for the same id; however, every id the
bridge registers is freshly allocator-issued, so in any allocator-consistent
state the registered id is absent from the table and registration strictly
appends, replacing nothing. -/
theorem c4_register_amended :
    (∀ (α : Type) (m : List (Nat × α)) (k : Nat) (v : α),
        mapGet (mapSet m k v) k = some v)
    ∧ (∀ (s : BridgeState) (t inst caller : Nat) (method path : String)
        (hs : List (String × HVal)) (body : Option JsonVal) (sendErr : Option String),
        Inv s →
        (step s (t, Ev.accept inst caller method path hs body sendErr)).pendingRequests
          = s.pendingRequests ++ [(s.requestIdCounter, caller)]) := by
  refine ⟨?_, ?_⟩
  · intro α m k v
    exact mapGet_mapSet_self m k v
  · intro s t inst caller method path hs body sendErr hinv
    obtain ⟨_, _, f2, _, _, _⟩ :=
      stepAccept_fields { s with now := max s.now t } caller method path hs body sendErr
    have e2 : (step s (t, Ev.accept inst caller method path hs body sendErr)).pendingRequests
        = mapSet s.pendingRequests s.requestIdCounter caller := f2
    have hfresh : mapGet s.pendingRequests s.requestIdCounter = none := by
      cases hg : mapGet s.pendingRequests s.requestIdCounter with
      | none => rfl
      | some c =>
          have := hinv.2.1 s.requestIdCounter c hg
          omega
    rw [e2, mapSet_fresh _ _ _ hfresh]

/-- Witness for C4 (amended): the first accepted request registers id 1 by
appending to the empty table. -/
theorem c4_register_amended_witness :
    (step initState (0, Ev.accept 0 7 "GET" "/" [] none none)).pendingRequests
      = initState.pendingRequests ++ [(initState.requestIdCounter, 7)] :=
  c4_register_amended.2 initState 0 0 7 "GET" "/" [] none none inv_init

/-- Claim C5 counterexample: with two requests pending and no replies,
running the teardown closure closes the listener but fails no pending
completion and removes no entry — nothing is drained, contradicting the
claim that all pending completions are failed immediately on shutdown. -/
theorem c5_shutdown_no_drain_counterexample :
    (run [(0, Ev.accept 0 1 "GET" "/a" [] none none),
          (0, Ev.accept 0 2 "GET" "/b" [] none none),
          (1, Ev.cleanup 0)]).serverClosed = true
    ∧ (run [(0, Ev.accept 0 1 "GET" "/a" [] none none),
          (0, Ev.accept 0 2 "GET" "/b" [] none none),
          (1, Ev.cleanup 0)]).pendingRequests = [(1, 1), (2, 2)]
    ∧ (run [(0, Ev.accept 0 1 "GET" "/a" [] none none),
          (0, Ev.accept 0 2 "GET" "/b" [] none none),
          (1, Ev.cleanup 0)]).outcomes = [] := by decide

/-- Claim C5 (amended): the teardown operation only closes the listener;
it does not drain the correlation table — pending entries, their timers
and the callers' completions are untouched, and each pending request is
failed only later, by its own 30-second timeout. -/
theorem c5_cleanup_amended (s : BridgeState) (t inst : Nat) :
    (step s (t, Ev.cleanup inst)).serverClosed = true
    ∧ (step s (t, Ev.cleanup inst)).pendingRequests = s.pendingRequests
    ∧ (step s (t, Ev.cleanup inst)).outcomes = s.outcomes
    ∧ (step s (t, Ev.cleanup inst)).timers = s.timers :=
  ⟨rfl, rfl, rfl, rfl⟩

/-- Claim C6 counterexample: `webContents.send` throws; the caller gets
the 500 failure response immediately, but the just-registered entry for
id 1 is NOT cancelled — it is still in the table after the catch block
ran, awaiting its 30-second timer. -/
theorem c6_send_failure_entry_left_counterexample :
    (run [(0, Ev.accept 0 9 "GET" "/x" [] none (some "send failed"))]).outcomes
        = [(9, ⟨500, jsErrorBody "Error: send failed"⟩)]
    ∧ mapGet (run [(0, Ev.accept 0 9 "GET" "/x" [] none
        (some "send failed"))]).pendingRequests 1 = some 9 := by decide

/-- Claim C6 (amended): a channel-send failure surfaces the 500 failure
response to the caller immediately and the event is not sent (no retry),
but the just-registered entry is not cancelled: it stays in the table and
is removed only when its timeout later fires — which then writes no
second response to the already-answered caller. -/
theorem c6_send_failure_amended :
    (∀ (s : BridgeState) (t inst caller : Nat) (method path : String)
        (hs : List (String × HVal)) (body : Option JsonVal) (msg : String),
        mapGet s.outcomes caller = none →
        (step s (t, Ev.accept inst caller method path hs body (some msg))).outcomes
            = s.outcomes ++ [(caller, ⟨500, jsErrorBody ("Error: " ++ msg)⟩)]
        ∧ (step s (t, Ev.accept inst caller method path hs body (some msg))).sentEvents
            = s.sentEvents
        ∧ mapGet (step s (t, Ev.accept inst caller method path hs body
            (some msg))).pendingRequests s.requestIdCounter = some caller)
    ∧ (∀ (s : BridgeState) (t N d caller : Nat),
        mapGet s.timers N = some d → d ≤ max s.now t →
        mapGet s.pendingRequests N = some caller →
        (mapGet s.outcomes caller).isSome = true →
        (step s (t, Ev.timerFire N)).outcomes = s.outcomes
        ∧ mapGet (step s (t, Ev.timerFire N)).pendingRequests N = none) := by
  refine ⟨?_, ?_⟩
  · intro s t inst caller method path hs body msg hout
    obtain ⟨g0, g1⟩ :=
      stepAccept_err_fields { s with now := max s.now t } caller method path hs body msg
    have e0 : (step s (t, Ev.accept inst caller method path hs body (some msg))).outcomes
        = writeOutcomeList s.outcomes caller ⟨500, jsErrorBody ("Error: " ++ msg)⟩ := g0
    have e1 : (step s (t, Ev.accept inst caller method path hs body (some msg))).sentEvents
        = s.sentEvents := g1
    obtain ⟨_, _, f2, _, _, _⟩ :=
      stepAccept_fields { s with now := max s.now t } caller method path hs body (some msg)
    have e2 : (step s (t, Ev.accept inst caller method path hs body
        (some msg))).pendingRequests
        = mapSet s.pendingRequests s.requestIdCounter caller := f2
    refine ⟨?_, e1, ?_⟩
    · rw [e0, writeOutcomeList_of_none _ _ _ hout]
    · rw [e2]
      exact mapGet_mapSet_self _ _ _
  · intro s t N d caller ht hd hp hsome
    obtain ⟨f0, _, f2, _⟩ :=
      stepTimer_fire_hit { s with now := max s.now t } N d caller ht hd hp
    have e0 : (step s (t, Ev.timerFire N)).pendingRequests
        = mapDelete s.pendingRequests N := f0
    have e2 : (step s (t, Ev.timerFire N)).outcomes
        = writeOutcomeList s.outcomes caller ⟨500, jsErrorBody "Error: Request timeout"⟩ := f2
    refine ⟨?_, ?_⟩
    · rw [e2, writeOutcomeList_of_some _ _ _ hsome]
    · rw [e0]
      exact mapGet_mapDelete_self _ _

/-- Witness for C6 (amended): a send failure on the very first request. -/
theorem c6_send_failure_amended_witness :
    (step initState (0, Ev.accept 0 3 "POST" "/y" [] none (some "boom"))).outcomes
        = initState.outcomes ++ [(3, ⟨500, jsErrorBody ("Error: " ++ "boom")⟩)]
    ∧ (step initState (0, Ev.accept 0 3 "POST" "/y" [] none (some "boom"))).sentEvents
        = initState.sentEvents
    ∧ mapGet (step initState (0, Ev.accept 0 3 "POST" "/y" [] none
        (some "boom"))).pendingRequests initState.requestIdCounter = some 3 :=
  c6_send_failure_amended.1 initState 0 0 3 "POST" "/y" [] none "boom" (by decide)

/-- Claim C7: a timer never fires strictly before its deadline (such an
event changes only the clock); a matching response that arrives while the
entry is pending — in particular any time strictly before the deadline —
delivers exactly the event's status and body to the caller; when the
timeout does fire, at or after the deadline, the caller receives the
fallback 500 response with the structured error body exactly once, the
entry is removed from the table and the timer is consumed; a consumed
timer cannot fire again. -/
theorem c7_timeout_boundary :
    (∀ (s : BridgeState) (t N d : Nat),
        mapGet s.timers N = some d → max s.now t < d →
        step s (t, Ev.timerFire N) = { s with now := max s.now t })
    ∧ (∀ (s : BridgeState) (t inst N c status : Nat) (body : String),
        mapGet s.pendingRequests N = some c → mapGet s.outcomes c = none →
        mapGet (step s (t, Ev.ipcResponse inst "http-response"
          ⟨N, status, body⟩)).outcomes c = some ⟨status, body⟩)
    ∧ (∀ (s : BridgeState) (t N d c : Nat),
        mapGet s.timers N = some d → d ≤ max s.now t →
        mapGet s.pendingRequests N = some c → mapGet s.outcomes c = none →
        (step s (t, Ev.timerFire N)).outcomes
            = s.outcomes ++ [(c, ⟨500, jsErrorBody "Error: Request timeout"⟩)]
        ∧ mapGet (step s (t, Ev.timerFire N)).pendingRequests N = none
        ∧ mapGet (step s (t, Ev.timerFire N)).timers N = none)
    ∧ (∀ (s : BridgeState) (t N : Nat),
        mapGet s.timers N = none →
        step s (t, Ev.timerFire N) = { s with now := max s.now t }) := by
  refine ⟨?_, ?_, ?_, ?_⟩
  · intro s t N d ht hlt
    exact stepTimer_early { s with now := max s.now t } N d ht hlt
  · intro s t inst N c status body hpend hout
    obtain ⟨_, f1, _⟩ :=
      stepIpc_hit_fields { s with now := max s.now t } ⟨N, status, body⟩ c hpend
    have e1 : (step s (t, Ev.ipcResponse inst "http-response" ⟨N, status, body⟩)).outcomes
        = writeOutcomeList s.outcomes c ⟨status, body⟩ := f1
    rw [e1, writeOutcomeList_of_none _ _ _ hout]
    exact mapGet_append_single_self _ _ _ hout
  · intro s t N d c ht hd hp hout
    obtain ⟨f0, f1, f2, _⟩ :=
      stepTimer_fire_hit { s with now := max s.now t } N d c ht hd hp
    have e0 : (step s (t, Ev.timerFire N)).pendingRequests
        = mapDelete s.pendingRequests N := f0
    have e1 : (step s (t, Ev.timerFire N)).timers = mapDelete s.timers N := f1
    have e2 : (step s (t, Ev.timerFire N)).outcomes
        = writeOutcomeList s.outcomes c ⟨500, jsErrorBody "Error: Request timeout"⟩ := f2
    refine ⟨?_, ?_, ?_⟩
    · rw [e2, writeOutcomeList_of_none _ _ _ hout]
    · rw [e0]
      exact mapGet_mapDelete_self _ _
    · rw [e1]
      exact mapGet_mapDelete_self _ _
  · intro s t N h
    exact stepTimer_none { s with now := max s.now t } N h

/-- Witness for C7: request id 1 (caller 5) registered with deadline
30000 never gets a reply; the timer fires exactly at the deadline and the
caller receives the 500 timeout response, the entry and timer being
consumed. -/
theorem c7_timeout_boundary_witness :
    (step (⟨0, 2, [(1, 5)], [(1, 30000)], [], [], [1], false⟩ : BridgeState)
        (30000, Ev.timerFire 1)).outcomes
        = [] ++ [(5, ⟨500, jsErrorBody "Error: Request timeout"⟩)]
    ∧ mapGet (step (⟨0, 2, [(1, 5)], [(1, 30000)], [], [], [1], false⟩ : BridgeState)
        (30000, Ev.timerFire 1)).pendingRequests 1 = none
    ∧ mapGet (step (⟨0, 2, [(1, 5)], [(1, 30000)], [], [], [1], false⟩ : BridgeState)
        (30000, Ev.timerFire 1)).timers 1 = none :=
  c7_timeout_boundary.2.2.1
    (⟨0, 2, [(1, 5)], [(1, 30000)], [], [], [1], false⟩ : BridgeState)
    30000 1 30000 5 (by decide) (by decide) (by decide) (by decide)

/-- Claim C8 counterexample: the program's actual preflight response is
produced by the `cors` middleware, which ends every OPTIONS itself and
never emits `Access-Control-Allow-Private-Network`; the manifest response
(middleware headers plus the handler's own writes) lacks that header and
`Access-Control-Allow-Methods` too.  So neither the preflight response
nor the manifest response carries all five cross-origin headers. -/
theorem c8_missing_cors_counterexample :
    ¬ carriesAllCors preflightResponseHeaders
    ∧ ("Access-Control-Allow-Private-Network", "true") ∉ preflightResponseHeaders
    ∧ ¬ carriesAllCors manifestResponseHeaders
    ∧ ("Access-Control-Allow-Private-Network", "true") ∉ manifestResponseHeaders
    ∧ ("Access-Control-Allow-Methods", "*") ∉ manifestResponseHeaders := by decide

/-- Claim C8 (amended): both forwarded-response paths (success and error)
carry all five cross-origin headers; the preflight response — answered by
the `cors` middleware, the `app.options` handler being unreachable —
carries exactly four of the five, all but
`Access-Control-Allow-Private-Network`; the manifest response carries
exactly two of the five, `Access-Control-Allow-Origin` and
`Access-Control-Expose-Headers` (both from the middleware). -/
theorem c8_cors_headers_amended :
    carriesAllCors forwardSuccessResponseHeaders
    ∧ carriesAllCors forwardErrorResponseHeaders
    ∧ ("Access-Control-Allow-Origin", "*") ∈ preflightResponseHeaders
    ∧ ("Access-Control-Allow-Methods", "*") ∈ preflightResponseHeaders
    ∧ ("Access-Control-Allow-Headers", "*") ∈ preflightResponseHeaders
    ∧ ("Access-Control-Expose-Headers", "*") ∈ preflightResponseHeaders
    ∧ ("Access-Control-Allow-Private-Network", "true") ∉ preflightResponseHeaders
    ∧ ("Access-Control-Allow-Origin", "*") ∈ manifestResponseHeaders
    ∧ ("Access-Control-Expose-Headers", "*") ∈ manifestResponseHeaders
    ∧ ("Access-Control-Allow-Headers", "*") ∉ manifestResponseHeaders
    ∧ ("Access-Control-Allow-Methods", "*") ∉ manifestResponseHeaders
    ∧ ("Access-Control-Allow-Private-Network", "true") ∉ manifestResponseHeaders := by decide

/-- Claim C9 counterexample: the JSON body `false` is neither a string nor
absent, yet the translator coerces it to the empty string instead of
re-serializing it to its canonical text `"false"` — the coercion tests
truthiness, not presence. -/
theorem c9_falsy_body_counterexample :
    JsonVal.isString (JsonVal.bool false) = false
    ∧ coerceBody (some (JsonVal.bool false)) = ""
    ∧ JsonVal.stringify (JsonVal.bool false) = "false"
    ∧ ("" : String) ≠ "false" := by decide

/-- Claim C9 (amended): string bodies pass through unchanged and absent
bodies become the empty string, as claimed; a non-string body is
re-serialized to its canonical JSON text only when it is truthy — the
falsy JSON values (`null`, `false`, `0`) are coerced to the empty string
like an absent body.  (Objects and arrays, the only non-string bodies the
strict JSON middleware delivers, are always truthy, so on those the
claim's behaviour holds.) -/
theorem c9_coerce_body_amended :
    (∀ s : String, coerceBody (some (JsonVal.str s)) = s)
    ∧ coerceBody none = ""
    ∧ (∀ v : JsonVal, v.isString = false → v.truthy = true →
        coerceBody (some v) = v.stringify)
    ∧ (∀ v : JsonVal, v.isString = false → v.truthy = false →
        coerceBody (some v) = "") := by
  refine ⟨fun s => rfl, rfl, ?_, ?_⟩
  · intro v hs ht
    cases v <;> simp_all [coerceBody, JsonVal.isString, JsonVal.truthy]
  · intro v hs ht
    cases v <;> simp_all [coerceBody, JsonVal.isString, JsonVal.truthy]

/-- Witness for C9 (amended): a one-field object body is re-serialized to
its canonical JSON text. -/
theorem c9_coerce_body_amended_witness :
    coerceBody (some (JsonVal.obj [("a", JsonVal.num 1)]))
      = JsonVal.stringify (JsonVal.obj [("a", JsonVal.num 1)]) :=
  c9_coerce_body_amended.2.2.1 (JsonVal.obj [("a", JsonVal.num 1)]) rfl rfl

/-- Claim C10: the counter and the correlation table are module-level
state shared by every `startHttpServer` instance: a step's effect is
independent of which instance's listener or window the event arrives
through, identifiers are issued from the one shared counter across
instances (two bridges in one process do not have independent
registries), and a response arriving via one instance's channel resolves
an entry registered through another instance. -/
theorem c10_shared_registry :
    (∀ (s : BridgeState) (t i j caller : Nat) (method path : String)
        (hs : List (String × HVal)) (body : Option JsonVal) (sendErr : Option String),
        step s (t, Ev.accept i caller method path hs body sendErr)
          = step s (t, Ev.accept j caller method path hs body sendErr))
    ∧ (∀ (s : BridgeState) (t i j : Nat) (channel : String) (resp : HttpResponseEvent),
        step s (t, Ev.ipcResponse i channel resp)
          = step s (t, Ev.ipcResponse j channel resp))
    ∧ (run [(0, Ev.accept 1 41 "GET" "/a" [] none none),
            (0, Ev.accept 2 42 "POST" "/b" [] none none),
            (1, Ev.ipcResponse 1 "http-response" ⟨2, 201, "made"⟩)]).outcomes
        = [(42, ⟨201, "made"⟩)]
    ∧ (run [(0, Ev.accept 1 41 "GET" "/a" [] none none),
            (0, Ev.accept 2 42 "POST" "/b" [] none none),
            (1, Ev.ipcResponse 1 "http-response" ⟨2, 201, "made"⟩)]).assignedIds
        = [1, 2] := by
  refine ⟨fun s t i j caller method path hs body sendErr => rfl,
          fun s t i j channel resp => rfl, ?_, ?_⟩ <;> decide

end BsvDesktop
